import Mathlib

/-!
Verification of the ownership-wrapper generation layer of the
core-foundation crate (src/core-foundation/src/lib.rs).

Shallow embedding: opaque handles are addresses (`Nat`, with `0` the null
handle); foreign reference counting is observed through a trace of foreign
calls (`FCall`) emitted by each operation.  The generative rules
(`declare_TCFType`, `impl_TCFType`, `impl_CFComparison`) are embedded as
functions on a wrapper structure parameterised by the number of generic
type parameters `k` (the `PhantomData` fields carry no runtime content, so
`k` appears only at the type level, as in the source).
-/

namespace CoreFoundation

/-- A call into the foreign reference-counting primitives, recorded with
the handle it targets. -/
inductive FCall where
  | retain (h : Nat)
  | release (h : Nat)
  deriving DecidableEq, Repr

/-- The handle a foreign call targets. -/
def callTarget : FCall → Nat
  | .retain h => h
  | .release h => h

/-- Whether a foreign call is a release. -/
def isRelease : FCall → Bool
  | .retain _ => false
  | .release _ => true

/-- Net foreign reference-count delta attributable to handle `h` over a
trace of foreign calls: each retain of `h` counts `+1`, each release of
`h` counts `-1`. -/
def countDelta (h : Nat) : List FCall → Int
  | [] => 0
  | .retain g :: t => (if g = h then 1 else 0) + countDelta h t
  | .release g :: t => (if g = h then -1 else 0) + countDelta h t

/-- Modelled from the spec: the foreign `CFRetain` primitive (declared in
the crate's `base` module, which is not under src/).  Per the external
interface, it increments the count and returns a handle usable
interchangeably with the input; pointer casts preserve the address. -/
def CFRetain (h : Nat) : Nat × List FCall := (h, [.retain h])

/-- Modelled from the spec: the foreign `CFRelease` primitive (declared in
the crate's `base` module, which is not under src/).  It decrements the
count of the given handle. -/
def CFRelease (h : Nat) : List FCall := [.release h]

/-- The struct generated by `declare_TCFType`:
`pub struct Ty<P1..Pk>(TyRef, PhantomData<P1>, .., PhantomData<Pk>)`.
The single runtime field is the raw handle; the `PhantomData` markers are
zero-sized and carry no runtime content, so the parameter count `k`
appears only at the type level. -/
structure CFWrapper (k : Nat) where
  handle : Nat
  deriving DecidableEq, Repr

/-- `fn as_concrete_TypeRef(&self) -> TyRef { self.0 }` from
`impl_TCFType`. -/
def as_concrete_TypeRef {k : Nat} (w : CFWrapper k) : Nat :=
  w.handle

/-- `fn as_CFTypeRef(&self) -> CFTypeRef` from `impl_TCFType`: the
concrete handle cast to the abstract erased handle type (the cast
preserves the address). -/
def as_CFTypeRef {k : Nat} (w : CFWrapper k) : Nat :=
  as_concrete_TypeRef w

/-- `wrap_under_create_rule` from `impl_TCFType`: assert the reference is
non-null (the assertion failure is a fatal error, modelled as `.error`
with the panic message), then claim the handle directly as the stored
field, filling one `PhantomData` per type parameter. -/
def wrap_under_create_rule (k : Nat) (reference : Nat) :
    Except String (CFWrapper k) × List FCall :=
  if reference = 0 then
    (.error "Attempted to create a NULL object.", [])
  else
    (.ok ⟨reference⟩, [])

/-- `wrap_under_get_rule` from `impl_TCFType`: assert the reference is
non-null, call `CFRetain` on it (cast through the void-pointer type and
back), then delegate to `wrap_under_create_rule` on the returned
reference. -/
def wrap_under_get_rule (k : Nat) (reference : Nat) :
    Except String (CFWrapper k) × List FCall :=
  if reference = 0 then
    (.error "Attempted to create a NULL object.", [])
  else
    let r := CFRetain reference
    let c := wrap_under_create_rule k r.1
    (c.1, r.2 ++ c.2)

/-- The `Drop` implementation generated by `declare_TCFType`:
`unsafe { CFRelease(self.as_CFTypeRef()) }`.  Returns the foreign calls
it issues. -/
def dropTrace {k : Nat} (w : CFWrapper k) : List FCall :=
  CFRelease (as_CFTypeRef w)

/-- The `Clone` implementation generated by `impl_TCFType`:
`unsafe { Ty::wrap_under_get_rule(self.0) }`. -/
def clone {k : Nat} (w : CFWrapper k) :
    Except String (CFWrapper k) × List FCall :=
  wrap_under_get_rule k w.handle

/-- Modelled from the spec: the `PartialEq` body generated by
`impl_TCFType` is `self.as_CFType().eq(&other.as_CFType())`, where
`as_CFType` (in the crate's `base` module, not under src/) erases each
wrapper to the abstract supertype and the abstract type's equality
invokes the foreign equality primitive on the two erased handles.  The
temporary retain/release pair of each erasure cancels and does not affect
the boolean, so the result is the primitive applied to the erased views.
The foreign primitive is a parameter `eqPrim`. -/
def wrapperEq {k : Nat} (eqPrim : Nat → Nat → Bool) (a b : CFWrapper k) :
    Bool :=
  eqPrim (as_CFTypeRef a) (as_CFTypeRef b)

/-- `partial_cmp` from `impl_CFComparison`: always
`Some(compare(self.as_concrete_TypeRef(), other.as_concrete_TypeRef(),
null_mut()).into())`.  The binding-author-supplied foreign comparator is
a parameter; the null context pointer is the address `0`. -/
def partial_cmp {k : Nat} (compare : Nat → Nat → Nat → Ordering)
    (a b : CFWrapper k) : Option Ordering :=
  some (compare (as_concrete_TypeRef a) (as_concrete_TypeRef b) 0)

/-- `Option::unwrap` as used by the generated `cmp`: fatal (panic,
modelled as `.error`) on `None`. -/
def unwrapOrd : Option Ordering → Except String Ordering
  | some o => .ok o
  | none => .error "called Option::unwrap() on a None value"

/-- `cmp` from `impl_CFComparison`: `self.partial_cmp(other).unwrap()`. -/
def cmp {k : Nat} (compare : Nat → Nat → Nat → Ordering)
    (a b : CFWrapper k) : Except String Ordering :=
  unwrapOrd (partial_cmp compare a b)

/-- Modelled from the spec: `as_void_ptr` of the `TCFTypeRef` trait (in
the crate's `base` module, not under src/) is the cost-free cast of a
handle to a void pointer, preserving the address. -/
def as_void_ptr (h : Nat) : Nat := h

/-- The `ToVoid` implementation generated by `impl_TCFType` for a
reference to the wrapper: `self.as_concrete_TypeRef().as_void_ptr()`. -/
def to_void_of_ref {k : Nat} (w : CFWrapper k) : Nat :=
  as_void_ptr (as_concrete_TypeRef w)

/-- The `ToVoid` implementation generated by `impl_TCFType` for the
wrapper value itself: `self.as_concrete_TypeRef().as_void_ptr()`. -/
def to_void_of_val {k : Nat} (w : CFWrapper k) : Nat :=
  as_void_ptr (as_concrete_TypeRef w)

/-- The `ToVoid` implementation generated by `impl_TCFType` for the bare
concrete handle type: `self.as_void_ptr()`. -/
def to_void_of_raw (h : Nat) : Nat :=
  as_void_ptr h

/-- The trait implementations a single `impl_TCFType` invocation can
emit. -/
inductive EmittedImpl where
  | tcfTypeImpl
  | cloneImpl
  | partialEqImpl
  | eqImpl
  | toVoidRefImpl
  | toVoidValImpl
  | toVoidRawImpl
  | concreteCFTypeImpl
  deriving DecidableEq, Repr

/-- How `impl_TCFType` is invoked: the first arm matches a bare type name
with no angle-bracket list; the second arm matches a type name with a
parameter list of `k` generic parameters (possibly `k = 0` for an empty
list). -/
inductive TCFInvocation where
  | plain
  | generic (k : Nat)
  deriving DecidableEq, Repr

/-- The implementations emitted by the second (generic) arm of
`impl_TCFType` for a parameter list of length `k`: the `TCFType` bridge,
`Clone`, `PartialEq`, `Eq`, and the three `ToVoid` forms — and nothing
else. -/
def genericArmOutput (k : Nat) : List EmittedImpl :=
  [.tcfTypeImpl, .cloneImpl, .partialEqImpl, .eqImpl,
   .toVoidRefImpl, .toVoidValImpl, .toVoidRawImpl]

/-- The implementations emitted by an `impl_TCFType` invocation.  The
first arm re-invokes the generic arm with an empty list and additionally
emits `unsafe impl ConcreteCFType for Ty { }`; the generic arm emits only
its own list. -/
def implTCFTypeOutput : TCFInvocation → List EmittedImpl
  | .plain => genericArmOutput 0 ++ [.concreteCFTypeImpl]
  | .generic k => genericArmOutput k

/-! ### Helper lemmas -/

/-- Successful `wrap_under_create_rule` forces a non-null input, stores it
unchanged, and issues no foreign call. -/
theorem create_rule_ok {k r : Nat} {w : CFWrapper k} {t : List FCall}
    (hc : wrap_under_create_rule k r = (.ok w, t)) :
    r ≠ 0 ∧ w = ⟨r⟩ ∧ t = [] := by
  by_cases h0 : r = 0
  · simp [wrap_under_create_rule, h0] at hc
  · simp [wrap_under_create_rule, h0] at hc
    exact ⟨h0, hc.1.symm, hc.2⟩

/-- Successful `wrap_under_get_rule` forces a non-null input, stores it
unchanged, and issues exactly the one retain. -/
theorem get_rule_ok {k r : Nat} {w : CFWrapper k} {t : List FCall}
    (hg : wrap_under_get_rule k r = (.ok w, t)) :
    r ≠ 0 ∧ w = ⟨r⟩ ∧ t = [.retain r] := by
  by_cases h0 : r = 0
  · simp [wrap_under_get_rule, h0] at hg
  · simp [wrap_under_get_rule, wrap_under_create_rule, CFRetain, h0] at hg
    exact ⟨h0, hg.1.symm, hg.2.symm⟩

/-- On a non-null reference, `wrap_under_get_rule` succeeds with the same
handle after exactly one retain. -/
theorem get_rule_eval {k r : Nat} (h0 : r ≠ 0) :
    wrap_under_get_rule k r = (.ok ⟨r⟩, [.retain r]) := by
  simp [wrap_under_get_rule, wrap_under_create_rule, CFRetain, h0]

/-- On a non-null reference, `wrap_under_create_rule` succeeds with the
same handle and no foreign call. -/
theorem create_rule_eval {k r : Nat} (h0 : r ≠ 0) :
    wrap_under_create_rule k r = (.ok ⟨r⟩, []) := by
  simp [wrap_under_create_rule, h0]

/-! ### Claims -/

/-- C1: for every generated wrapper type (`k` generic parameters) and
every non-null handle `h`, `wrap_under_get_rule` issues exactly one
foreign retain on `h` before claiming the handle returned by the retain,
while `wrap_under_create_rule` issues no foreign call and claims `h`
directly as the stored handle. -/
theorem C1_acquisition_rules (k h : Nat) (hnn : h ≠ 0) :
    wrap_under_get_rule k h = (.ok ⟨h⟩, [.retain h]) ∧
    wrap_under_create_rule k h = (.ok ⟨h⟩, []) :=
  ⟨get_rule_eval hnn, create_rule_eval hnn⟩

/-- Witness for C1 at `k = 0`, `h = 1`. -/
theorem C1_acquisition_rules_witness :
    wrap_under_get_rule 0 1 = (.ok ⟨1⟩, [.retain 1]) ∧
    wrap_under_create_rule 0 1 = (.ok ⟨1⟩, []) :=
  C1_acquisition_rules 0 1 (by decide)

/-- C2: dropping a wrapper instance of a generated type, for any number
`k` of generic type parameters, issues exactly one foreign release call,
applied to the wrapper's handle viewed as the abstract erased handle, and
no other foreign call. -/
theorem C2_drop_releases_once (k : Nat) (w : CFWrapper k) :
    dropTrace w = [.release (as_CFTypeRef w)] ∧
    (dropTrace w).countP (fun c => isRelease c) = 1 := by
  constructor
  · rfl
  · simp [dropTrace, CFRelease, isRelease, List.countP_cons]

/-- C3: on a non-null handle `h`, borrowed acquisition followed
immediately by drop leaves the foreign count of `h` unchanged (net delta
`0`), while owned acquisition followed immediately by drop decrements it
by exactly one (net delta `-1`). -/
theorem C3_net_count_delta (k h : Nat) (hnn : h ≠ 0) :
    (∀ w t, wrap_under_get_rule k h = (.ok w, t) →
      countDelta h (t ++ dropTrace w) = 0) ∧
    (∀ w t, wrap_under_create_rule k h = (.ok w, t) →
      countDelta h (t ++ dropTrace w) = -1) := by
  constructor
  · intro w t hg
    obtain ⟨-, hw, ht⟩ := get_rule_ok hg
    subst hw; subst ht
    simp [dropTrace, CFRelease, as_CFTypeRef, as_concrete_TypeRef, countDelta]
  · intro w t hc
    obtain ⟨-, hw, ht⟩ := create_rule_ok hc
    subst hw; subst ht
    simp [dropTrace, CFRelease, as_CFTypeRef, as_concrete_TypeRef, countDelta]

/-- Witness for C3 at `k = 0`, `h = 1`: both acquisition paths evaluated
concretely. -/
theorem C3_net_count_delta_witness :
    countDelta 1 ([FCall.retain 1] ++ dropTrace (⟨1⟩ : CFWrapper 0)) = 0 ∧
    countDelta 1 ([] ++ dropTrace (⟨1⟩ : CFWrapper 0)) = -1 :=
  ⟨(C3_net_count_delta 0 1 (by decide)).1 ⟨1⟩ [FCall.retain 1] (by rfl),
   (C3_net_count_delta 0 1 (by decide)).2 ⟨1⟩ [] (by rfl)⟩

/-- C4: both acquisition constructors on the null handle terminate
fatally with the diagnostic message, issuing no foreign call and
returning no wrapper; and any successfully produced wrapper has a
non-null handle. -/
theorem C4_null_handle_fatal (k : Nat) :
    wrap_under_get_rule k 0 =
      (.error "Attempted to create a NULL object.", []) ∧
    wrap_under_create_rule k 0 =
      (.error "Attempted to create a NULL object.", []) ∧
    (∀ h w t, wrap_under_get_rule k h = (.ok w, t) → w.handle ≠ 0) ∧
    (∀ h w t, wrap_under_create_rule k h = (.ok w, t) → w.handle ≠ 0) := by
  refine ⟨rfl, rfl, ?_, ?_⟩
  · intro h w t hg
    obtain ⟨h0, hw, -⟩ := get_rule_ok hg
    subst hw; exact h0
  · intro h w t hc
    obtain ⟨h0, hw, -⟩ := create_rule_ok hc
    subst hw; exact h0

/-- Witness for C4 at `k = 0`: the null path evaluated, and the non-null
consequence applied to the concrete success at `h = 1`. -/
theorem C4_null_handle_fatal_witness :
    wrap_under_get_rule 0 0 =
      (.error "Attempted to create a NULL object.", []) ∧
    (⟨1⟩ : CFWrapper 0).handle ≠ 0 :=
  ⟨(C4_null_handle_fatal 0).1,
   (C4_null_handle_fatal 0).2.2.1 1 ⟨1⟩ [FCall.retain 1] (by rfl)⟩

/-- C5: `Clone::clone` on a wrapper is exactly `wrap_under_get_rule`
applied to the wrapper's current handle; on a (necessarily non-null)
handle it performs exactly one foreign retain and yields an independent
wrapper storing the same handle. -/
theorem C5_clone_is_get_rule (k : Nat) (w : CFWrapper k) :
    clone w = wrap_under_get_rule k (as_concrete_TypeRef w) ∧
    (w.handle ≠ 0 →
      clone w = (.ok ⟨w.handle⟩, [.retain w.handle])) := by
  refine ⟨rfl, ?_⟩
  intro h0
  exact get_rule_eval h0

/-- Witness for C5 at `k = 0`, handle `2`. -/
theorem C5_clone_is_get_rule_witness :
    clone (⟨2⟩ : CFWrapper 0) = wrap_under_get_rule 0 2 ∧
    clone (⟨2⟩ : CFWrapper 0) = (.ok ⟨2⟩, [.retain 2]) :=
  ⟨(C5_clone_is_get_rule 0 ⟨2⟩).1,
   (C5_clone_is_get_rule 0 ⟨2⟩).2 (by decide)⟩

/-- C6: generated equality holds exactly when the foreign equality
primitive, applied to the abstract erased views of the two handles,
returns true; in particular two wrappers around distinct handles that the
primitive reports equal compare equal. -/
theorem C6_equality_delegates (k : Nat) (eqPrim : Nat → Nat → Bool)
    (a b : CFWrapper k) :
    (wrapperEq eqPrim a b = true ↔
      eqPrim (as_CFTypeRef a) (as_CFTypeRef b) = true) ∧
    (a.handle ≠ b.handle → eqPrim a.handle b.handle = true →
      wrapperEq eqPrim a b = true) := by
  refine ⟨Iff.rfl, ?_⟩
  intro _ hp
  simpa [wrapperEq, as_CFTypeRef, as_concrete_TypeRef] using hp

/-- Witness for C6: a primitive reporting the distinct handles `1` and
`2` equal makes the wrappers compare equal. -/
theorem C6_equality_delegates_witness :
    wrapperEq (fun _ _ => true) (⟨1⟩ : CFWrapper 0) ⟨2⟩ = true :=
  (C6_equality_delegates 0 (fun _ _ => true) ⟨1⟩ ⟨2⟩).2 (by decide) rfl

/-- C7: generated `partial_cmp` always returns a defined (`some`) result,
namely the foreign three-way comparator applied to the two concrete
handles with the null context; `cmp` unwraps that assumption, and the
unwrap treats an undefined relation as a fatal error rather than a
fabricated answer. -/
theorem C7_ordering_total (k : Nat) (compare : Nat → Nat → Nat → Ordering)
    (a b : CFWrapper k) :
    partial_cmp compare a b =
      some (compare (as_concrete_TypeRef a) (as_concrete_TypeRef b) 0) ∧
    cmp compare a b =
      .ok (compare (as_concrete_TypeRef a) (as_concrete_TypeRef b) 0) ∧
    unwrapOrd none = .error "called Option::unwrap() on a None value" :=
  ⟨rfl, rfl, rfl⟩

/-- C8: the three `ToVoid` conversions — from the wrapper value, from a
reference to the wrapper, and from the bare concrete handle — all yield
the identical pointer value for the same underlying object. -/
theorem C8_to_void_agree (k : Nat) (w : CFWrapper k) :
    to_void_of_val w = to_void_of_ref w ∧
    to_void_of_ref w = to_void_of_raw (as_concrete_TypeRef w) :=
  ⟨rfl, rfl⟩

/-- C9 counterexample: an `impl_TCFType` invocation through the generic
arm with one type parameter does not emit the `ConcreteCFType` marker, so
not every type produced by the behavior generator carries it. -/
theorem C9_counterexample :
    EmittedImpl.concreteCFTypeImpl ∉ implTCFTypeOutput (.generic 1) := by
  decide

/-- C9 (amended): an `impl_TCFType` invocation emits the
`ConcreteCFType` marker exactly when it goes through the non-generic
arm; invocations with a generic-parameter list (even an empty one) never
receive the marker from the generator. -/
theorem C9_marker_nongeneric_only (inv : TCFInvocation) :
    EmittedImpl.concreteCFTypeImpl ∈ implTCFTypeOutput inv ↔
      inv = .plain := by
  cases inv with
  | plain => simp [implTCFTypeOutput, genericArmOutput]
  | generic k => simp [implTCFTypeOutput, genericArmOutput]

/-- C10: a wrapper produced by either acquisition constructor holds a
non-null handle; the generated accessors, erasure, void-bridging, drop
and clone all read the stored handle unchanged, so every foreign call
those operations issue targets a non-null handle, and a successful clone
again stores the same non-null handle. -/
theorem C10_nonnull_invariant (k h : Nat) (w : CFWrapper k)
    (t : List FCall)
    (hacq : wrap_under_get_rule k h = (.ok w, t) ∨
      wrap_under_create_rule k h = (.ok w, t)) :
    w.handle ≠ 0 ∧
    as_concrete_TypeRef w = w.handle ∧
    as_CFTypeRef w = w.handle ∧
    to_void_of_val w = w.handle ∧
    (∀ c ∈ dropTrace w, callTarget c ≠ 0) ∧
    (∀ c ∈ (clone w).2, callTarget c ≠ 0) ∧
    (∀ w2 t2, clone w = (.ok w2, t2) →
      w2.handle = w.handle ∧ w2.handle ≠ 0) := by
  have h0 : w.handle ≠ 0 := by
    rcases hacq with hg | hc
    · obtain ⟨h0, hw, -⟩ := get_rule_ok hg
      subst hw; exact h0
    · obtain ⟨h0, hw, -⟩ := create_rule_ok hc
      subst hw; exact h0
  refine ⟨h0, rfl, rfl, rfl, ?_, ?_, ?_⟩
  · intro c hmem
    simp [dropTrace, CFRelease] at hmem
    subst hmem
    simpa [callTarget, as_CFTypeRef, as_concrete_TypeRef] using h0
  · intro c hmem
    simp [clone, get_rule_eval h0] at hmem
    subst hmem
    simpa [callTarget] using h0
  · intro w2 t2 hcl
    have : wrap_under_get_rule k w.handle = (.ok w2, t2) := hcl
    obtain ⟨-, hw2, -⟩ := get_rule_ok this
    subst hw2
    exact ⟨rfl, h0⟩

/-- Witness for C10 at `k = 0`, `h = 3`, via the borrowed-acquisition
branch. -/
theorem C10_nonnull_invariant_witness :
    (⟨3⟩ : CFWrapper 0).handle ≠ 0 ∧
    as_CFTypeRef (⟨3⟩ : CFWrapper 0) = 3 :=
  ⟨(C10_nonnull_invariant 0 3 ⟨3⟩ [FCall.retain 3] (Or.inl (by rfl))).1,
   (C10_nonnull_invariant 0 3 ⟨3⟩ [FCall.retain 3] (Or.inl (by rfl))).2.2.1⟩

end CoreFoundation
